import Mathlib

set_option maxRecDepth 100000

/-!
Shallow embedding of the Docker registry client
(lib/datasource/docker/common.ts) and proofs of its specification
properties.

The TypeScript source is dynamically typed, so the embedding carries a
small model of JavaScript runtime values: parsed JSON values, the
distinguished value undefined (modelled as Option.none around a
JsonVal), truthiness, property access (which throws a TypeError on null
and undefined receivers), and template-literal string coercion.

External collaborators (the HTTP client, the credential store, the
vendor token service, the package cache) are modelled as a read-only
World plus a mutable WState threaded through a monad M that also
supports thrown JavaScript errors.  HTTP responses are a function of the
requested URL; every issued request is logged in the state so that
properties about the absence of network traffic can be stated.
-/

/-!
A parsed JSON value.  Numbers are modelled as integers, which covers
every numeric literal appearing in the protocol fields this client
inspects.  Arrays and objects carry their own mutual spine types so that
every operation on them is structurally recursive.
-/

mutual

/-- A parsed JSON value. -/
inductive JsonVal where
  | null
  | bool (flag : Bool)
  | num (value : Int)
  | str (text : String)
  | arr (items : JsonArr)
  | obj (entries : JsonObj)
deriving Repr, DecidableEq

/-- The element list of a JSON array. -/
inductive JsonArr where
  | nil
  | cons (hd : JsonVal) (tl : JsonArr)
deriving Repr, DecidableEq

/-- The field list of a JSON object, in insertion order. -/
inductive JsonObj where
  | nil
  | cons (key : String) (val : JsonVal) (tl : JsonObj)
deriving Repr, DecidableEq

end

/-- First-match association-list lookup, used for HTTP header maps. -/
def lookupStr {α : Type} (k : String) : List (String × α) → Option α
  | [] => none
  | (k', v) :: rest => if k = k' then some v else lookupStr k rest

/-- First-match lookup of a JSON object field; object construction keeps
keys unique, so first match is the only match. -/
def JsonObj.lookup (k : String) : JsonObj → Option JsonVal
  | .nil => none
  | .cons k' v tl => if k = k' then some v else JsonObj.lookup k tl

def JsonArr.length : JsonArr → Nat
  | .nil => 0
  | .cons _ tl => tl.length + 1

def JsonArr.get? : JsonArr → Nat → Option JsonVal
  | .nil, _ => none
  | .cons v _, 0 => some v
  | .cons _ tl, n+1 => tl.get? n

/-- JavaScript truthiness of a possibly-undefined value (none stands for
undefined). -/
def jsTruthy : Option JsonVal → Bool
  | none => false
  | some .null => false
  | some (.bool b) => b
  | some (.num n) => n != 0
  | some (.str s) => s ≠ ""
  | some (.arr _) => true
  | some (.obj _) => true

/-- Recognizer for the JSON null value. -/
def JsonVal.isNull : JsonVal → Bool
  | .null => true
  | _ => false

mutual

/-- JavaScript string coercion of a JSON value, as performed by template
literals: arrays join their elements with commas (null elements become
empty), objects print as object Object. -/
def jsValToString : JsonVal → String
  | .null => "null"
  | .bool b => if b then "true" else "false"
  | .num n => toString n
  | .str s => s
  | .arr xs => String.intercalate "," (jsArrStrings xs)
  | .obj _ => "[object Object]"

/-- The element strings of an array under JavaScript join semantics. -/
def jsArrStrings : JsonArr → List String
  | .nil => []
  | .cons v tl => (if v.isNull then "" else jsValToString v) :: jsArrStrings tl

end

/-- String coercion of a possibly-undefined value. -/
def jsToString : Option JsonVal → String
  | none => "undefined"
  | some v => jsValToString v

/-- The fields of a thrown JavaScript error object that the source
inspects: HTTP status code, transport error code, constructor name, the
request host, and the message. -/
structure JsErr where
  statusCode : Option Nat := none
  code : Option String := none
  name : Option String := none
  host : Option String := none
  message : Option String := none
deriving Repr, DecidableEq

/-- A value thrown inside the client: either an already-wrapped
ExternalHostError carrying the original error, or a plain JavaScript
error. -/
inductive DockerErr where
  | external (e : JsErr)
  | js (e : JsErr)
deriving Repr, DecidableEq

/-- An HTTP response delivered by the transport collaborator. -/
structure HttpResponse where
  statusCode : Nat
  headers : List (String × String)
  body : String
deriving Repr, DecidableEq

/-- Outcome of one HTTP request: either the server responded (with any
status code) or the request failed at the transport level. -/
inductive HttpOutcome where
  | resp (r : HttpResponse)
  | fail (e : JsErr)
deriving Repr

/-- A credential record as returned by the external host-rules
collaborator.  Modelled from the spec: findCredentials yields optional
username, password and an insecureRegistry flag. -/
structure HostRule where
  username : Option String := none
  password : Option String := none
  insecureRegistry : Bool := false
deriving Repr

/-- The read-only external environment: HTTP responses keyed by URL, the
credential store keyed by the url passed to the lookup, and the vendor
(ECR) token service.  Modelled from the spec: these are the external
collaborators of section 6. -/
structure World where
  http : String → HttpOutcome
  hostRule : String → HostRule
  ecrToken : String → HostRule → Option String

/-- One entry of the external package cache: namespace, key, the stored
value (which, like any JavaScript value, may be undefined) and the TTL
in minutes it was stored with. -/
structure CacheEntry where
  ns : String
  key : String
  value : Option JsonVal
  ttlMinutes : Nat
deriving Repr

/-- The mutable state threaded through a run: the log of issued request
URLs and the contents of the package cache (most recent entry first). -/
structure WState where
  requests : List String := []
  cache : List CacheEntry := []
deriving Repr

/-- The computation monad: read-only World, threaded WState, and thrown
DockerErr values.  State changes made before a throw are preserved, as
in the JavaScript original. -/
def M (α : Type) : Type := World → WState → Except DockerErr α × WState

def M.pure {α : Type} (a : α) : M α := fun _ s => (.ok a, s)

def M.bind {α β : Type} (x : M α) (f : α → M β) : M β := fun w s =>
  match x w s with
  | (.ok a, s') => f a w s'
  | (.error e, s') => (.error e, s')

instance : Monad M where
  pure := M.pure
  bind := M.bind

def M.throw {α : Type} (e : DockerErr) : M α := fun _ s => (.error e, s)

/-- The try/catch of the source: run the body; on a thrown error run the
handler from the state reached at the throw. -/
def M.tryCatch {α : Type} (x : M α) (h : DockerErr → M α) : M α := fun w s =>
  match x w s with
  | (.ok a, s') => (.ok a, s')
  | (.error e, s') => h e w s'

def M.world : M World := fun w s => (.ok w, s)

def M.modifyState (f : WState → WState) : M Unit := fun _ s => (.ok (), f s)

def M.getState : M WState := fun _ s => (.ok s, s)

@[simp] theorem M.bind_eq {α β : Type} (x : M α) (f : α → M β) :
    x >>= f = M.bind x f := rfl

@[simp] theorem M.pure_eq {α : Type} (a : α) :
    (Pure.pure a : M α) = M.pure a := rfl

/-- A generic TypeError, thrown by property access on null or undefined
receivers.  The message text is not inspected by the source, so it is
left unmodelled. -/
def typeError : JsErr := { name := some "TypeError" }

/-- The error surfaced when the JavaScript call stack would overflow in
an unbounded recursion; the embedding throws it when the recursion fuel
runs out. -/
def stackOverflowError : JsErr := { name := some "RangeError" }

/-- JavaScript property access on a possibly-undefined value: throws a
TypeError on undefined and null receivers, looks fields up on objects,
exposes length on arrays and strings, and yields undefined otherwise. -/
def jsGetM (v : Option JsonVal) (k : String) : M (Option JsonVal) :=
  match v with
  | none => M.throw (.js typeError)
  | some .null => M.throw (.js typeError)
  | some (.obj fs) => M.pure (fs.lookup k)
  | some (.arr xs) =>
      M.pure (if k = "length" then some (.num xs.length) else none)
  | some (.str s) =>
      M.pure (if k = "length" then some (.num s.length) else none)
  | some _ => M.pure none

/-- JavaScript index access with a numeric index. -/
def jsIndexM (v : Option JsonVal) (i : Nat) : M (Option JsonVal) :=
  match v with
  | none => M.throw (.js typeError)
  | some .null => M.throw (.js typeError)
  | some (.arr xs) => M.pure (xs.get? i)
  | some (.obj fs) => M.pure (fs.lookup (toString i))
  | some (.str s) => M.pure ((s.data.get? i).map fun c => .str (String.mk [c]))
  | some _ => M.pure none

/-- Strict JavaScript equality of a possibly-undefined value with a
string constant. -/
def jsStrictEqStr : Option JsonVal → String → Bool
  | some (.str t), s => t = s
  | _, _ => false

/-- Strict JavaScript equality of a possibly-undefined value with a
numeric constant. -/
def jsStrictEqNum : Option JsonVal → Int → Bool
  | some (.num m), n => m = n
  | _, _ => false

/-- JavaScript truthiness of a string-or-undefined value (the empty
string is falsy). -/
def optStrTruthy : Option String → Bool
  | some s => s ≠ ""
  | none => false

/-- String coercion of a string-or-undefined value, as applied by the
source to the parsed challenge parameters. -/
def jsStrOpt : Option String → String
  | some s => s
  | none => "undefined"

/-- Split a character list at every occurrence of a separator, keeping
empty segments, like the JavaScript single-character string split. -/
def splitOnCharL (sep : Char) : List Char → List (List Char)
  | [] => [[]]
  | c :: rest =>
    match splitOnCharL sep rest with
    | [] => [[]]
    | h :: t => if c = sep then [] :: h :: t else (c :: h) :: t

def strSplitOnChar (sep : Char) (s : String) : List String :=
  (splitOnCharL sep s.data).map String.mk

def strStartsWith (s p : String) : Bool := p.data.isPrefixOf s.data

def strEndsWith (s p : String) : Bool := p.data.isSuffixOf s.data

def strContainsChar (s : String) (c : Char) : Bool := s.data.contains c

def strToUpper (s : String) : String := String.mk (s.data.map Char.toUpper)

/-- Replace the first occurrence of a non-empty pattern, as the
JavaScript string replace does with a plain-string pattern. -/
def replaceFirstL (pat rep : List Char) : List Char → List Char
  | [] => []
  | c :: rest =>
    if pat.isPrefixOf (c :: rest) then rep ++ (c :: rest).drop pat.length
    else c :: replaceFirstL pat rep rest

def jsReplaceFirst (s pat rep : String) : String :=
  String.mk (replaceFirstL pat.data rep.data s.data)

def trimSpacesL (cs : List Char) : List Char :=
  ((cs.dropWhile (fun c => decide (c = ' '))).reverse.dropWhile
    (fun c => decide (c = ' '))).reverse

/-- JSON insignificant whitespace. -/
def jsonWsChar (c : Char) : Bool := c = ' ' || c = '\t' || c = '\n' || c = '\r'

def skipJsonWs (cs : List Char) : List Char := cs.dropWhile jsonWsChar

def digitsToNat (ds : List Char) : Nat :=
  ds.foldl (fun a c => a * 10 + (c.toNat - 48)) 0

def parseDigits (cs : List Char) : Option (Nat × List Char) :=
  let ds := cs.takeWhile Char.isDigit
  if ds.isEmpty then none else some (digitsToNat ds, cs.drop ds.length)

/-- The string-literal escape table: the escape letter paired with the
character it denotes. -/
def escTable : List (Char × Char) :=
  [('n', '\n'), ('t', '\t'), ('r', '\r'), ('"', '"'), ('/', '/'), ('\\', '\\')]

/-- Decode one string-literal escape character via the table. -/
def escChar (e : Char) : Option Char := escTable.lookup e

/-- Parse the remainder of a JSON string literal after the opening
quote, returning the decoded characters and the rest of the input. -/
def parseStringLit : List Char → Option (List Char × List Char)
  | [] => none
  | '"' :: rest => some ([], rest)
  | '\\' :: e :: rest =>
      match escChar e with
      | none => none
      | some c =>
        match parseStringLit rest with
        | none => none
        | some (s, r) => some (c :: s, r)
  | c :: rest =>
      if c = '"' ∨ c = '\\' then none
      else
        match parseStringLit rest with
        | none => none
        | some (s, r) => some (c :: s, r)

def JsonObj.removeKey (k : String) : JsonObj → JsonObj
  | .nil => .nil
  | .cons k' v tl =>
      if k' = k then JsonObj.removeKey k tl
      else .cons k' v (JsonObj.removeKey k tl)

def JsonObj.append : JsonObj → JsonObj → JsonObj
  | .nil, o => o
  | .cons k v tl, o => .cons k v (JsonObj.append tl o)

/-- Set a field of a JSON object under construction, with the
last-occurrence-wins semantics of duplicate keys in JavaScript object
construction. -/
def putField (fs : JsonObj) (k : String) (v : JsonVal) : JsonObj :=
  (fs.removeKey k).append (.cons k v .nil)

/-- Convert an accumulated element list to an array spine. -/
def listToArr : List JsonVal → JsonArr
  | [] => .nil
  | v :: rest => .cons v (listToArr rest)

mutual

/-- Fuel-bounded recursive-descent parser for JSON values, the model of
the JSON.parse builtin.  Numbers are restricted to optionally signed
integers, which covers every body this client constructs or inspects. -/
def parseJsonV : Nat → List Char → Option (JsonVal × List Char)
  | 0, _ => none
  | fuel+1, cs =>
    match skipJsonWs cs with
    | '"' :: rest =>
        match parseStringLit rest with
        | none => none
        | some (s, r) => some (.str (String.mk s), r)
    | '-' :: rest =>
        match parseDigits rest with
        | none => none
        | some (n, r) => some (.num (-(n : Int)), r)
    | '[' :: rest => parseArrItems fuel (skipJsonWs rest) []
    | '\x7b' :: rest => parseObjItems fuel (skipJsonWs rest) .nil
    | cs0 =>
      if "null".data.isPrefixOf cs0 then some (.null, cs0.drop 4)
      else if "true".data.isPrefixOf cs0 then some (.bool true, cs0.drop 4)
      else if "false".data.isPrefixOf cs0 then some (.bool false, cs0.drop 5)
      else
        match parseDigits cs0 with
        | none => none
        | some (n, r) => some (.num (n : Int), r)

/-- Parse the items of a JSON array after the opening bracket. -/
def parseArrItems : Nat → List Char → List JsonVal → Option (JsonVal × List Char)
  | 0, _, _ => none
  | fuel+1, cs, acc =>
    match cs with
    | ']' :: rest => some (.arr (listToArr acc.reverse), rest)
    | _ =>
      match parseJsonV fuel cs with
      | none => none
      | some (v, r) =>
        match skipJsonWs r with
        | ',' :: r2 => parseArrItems fuel (skipJsonWs r2) (v :: acc)
        | ']' :: r2 => some (.arr (listToArr (v :: acc).reverse), r2)
        | _ => none

/-- Parse the fields of a JSON object after the opening brace. -/
def parseObjItems : Nat → List Char → JsonObj →
    Option (JsonVal × List Char)
  | 0, _, _ => none
  | fuel+1, cs, acc =>
    match cs with
    | '\x7d' :: rest => some (.obj acc, rest)
    | '"' :: rest =>
      match parseStringLit rest with
      | none => none
      | some (k, r) =>
        match skipJsonWs r with
        | ':' :: r2 =>
          match parseJsonV fuel (skipJsonWs r2) with
          | none => none
          | some (v, r3) =>
            match skipJsonWs r3 with
            | ',' :: r4 => parseObjItems fuel (skipJsonWs r4) (putField acc (String.mk k) v)
            | '}' :: r4 => some (.obj (putField acc (String.mk k) v), r4)
            | _ => none
        | _ => none
    | _ => none

end

/-- The model of JSON.parse: parse one value and require only trailing
whitespace after it. -/
def jsonParse (s : String) : Option JsonVal :=
  match parseJsonV (2 * s.length + 4) s.data with
  | some (v, rest) => if (skipJsonWs rest).isEmpty then some v else none
  | none => none

def base64Chars : List Char :=
  "ABCDEFGHIJKLMNOPQRSTUVWXYZabcdefghijklmnopqrstuvwxyz0123456789+/".data

def b64c (n : Nat) : Char := (base64Chars.get? n).getD 'A'

def base64Groups : List Nat → List Char
  | [] => []
  | [a] => [b64c (a / 4), b64c (a % 4 * 16), '=', '=']
  | [a, b] => [b64c (a / 4), b64c (a % 4 * 16 + b / 16), b64c (b % 16 * 4), '=']
  | a :: b :: c :: rest =>
      b64c (a / 4) :: b64c (a % 4 * 16 + b / 16) :: b64c (b % 16 * 4 + c / 64) ::
        b64c (c % 64) :: base64Groups rest

/-- Base64 of the UTF-8 bytes of a string, the model of the Node Buffer
toString base64 conversion used to build Basic authorization values. -/
def nodeBase64 (s : String) : String :=
  String.mk (base64Groups (s.toUTF8.toList.map UInt8.toNat))

/-- One character of the region capture group of the ECR hostname
pattern. -/
def ecrRegionChar (c : Char) : Bool := c = '-' || ('a' ≤ c && c ≤ 'z') || c.isDigit

/-- Try to match the ECR hostname pattern at the head of the input,
returning the captured region. -/
def ecrMatchAt (cs : List Char) : Option String :=
  let ds := cs.takeWhile Char.isDigit
  if ds.isEmpty then none
  else
    let r1 := cs.drop ds.length
    if ".dkr.ecr.".data.isPrefixOf r1 then
      let r2 := r1.drop 9
      let region := r2.takeWhile ecrRegionChar
      if region.isEmpty then none
      else if ".amazonaws.com".data.isPrefixOf (r2.drop region.length) then
        some (String.mk region)
      else none
    else none

def ecrMatchL : List Char → Option String
  | [] => none
  | c :: rest =>
    match ecrMatchAt (c :: rest) with
    | some r => some r
    | none => ecrMatchL rest

/-- The model of the unanchored ecrRegex of the source: search for the
leftmost match of the ECR hostname pattern and return the captured
region, or none when the test fails. -/
def ecrMatch (s : String) : Option String := ecrMatchL s.data

/-- The host part of a URL, as attached to transport errors by the HTTP
collaborator: the authority up to the first slash after the scheme. -/
def urlHost (url : String) : String :=
  let rest :=
    if strStartsWith url "https://" then url.data.drop 8
    else if strStartsWith url "http://" then url.data.drop 7
    else url.data
  String.mk (rest.takeWhile fun c => decide (c ≠ '/'))

/-- The parsed WWW-Authenticate challenge: the scheme token and the
realm and service parameters.  Modelled from the spec: the external
www-authenticate parser yields a scheme and a parameter map. -/
structure Challenge where
  scheme : String
  realm : Option String
  service : Option String
deriving Repr

def stripQuotesL (cs : List Char) : List Char :=
  if cs.length ≥ 2 ∧ cs.head? = some '"' ∧ cs.getLast? = some '"' then
    (cs.drop 1).dropLast
  else cs

def parseParm (p : List Char) : Option (String × String) :=
  let q := trimSpacesL p
  let k := q.takeWhile fun c => decide (c ≠ '=')
  if k.isEmpty then none
  else
    let v := (q.dropWhile fun c => decide (c ≠ '=')).drop 1
    some (String.mk k, String.mk (stripQuotesL v))

def parseChallenge (s : String) : Challenge :=
  let scheme := s.data.takeWhile fun c => decide (c ≠ ' ')
  let rest := (s.data.dropWhile fun c => decide (c ≠ ' ')).drop 1
  let pairs := (splitOnCharL ',' rest).filterMap parseParm
  { scheme := String.mk scheme
    realm := lookupStr "realm" pairs
    service := lookupStr "service" pairs }

/-- The default registry URL list of the source. -/
def defaultRegistryUrls : List String := ["https://index.docker.io"]

/-- The default public registry, defaultRegistryUrls zero. -/
def defaultRegistryUrl : String := defaultRegistryUrls.headD ""

/-- Modelled from the spec: the HOST_DISABLED message constant lives in
the constants module, which is not part of the provided sources; only
its identity matters to the classification. -/
def HOST_DISABLED : String := "host-disabled"

/-- The manifest-list media type, as listed in the accept header the
source sends (common.ts line 229). -/
def MediaType.manifestListV2 : String :=
  "application/vnd.docker.distribution.manifest.list.v2+json"

/-- The single-image manifest media type, as listed in the accept header
the source sends (common.ts line 229). -/
def MediaType.manifestV2 : String :=
  "application/vnd.docker.distribution.manifest.v2+json"

/-- The accept header value of getManifestResponse. -/
def acceptHeaderValue : String :=
  MediaType.manifestListV2 ++ ", " ++ MediaType.manifestV2

/-- The error object thrown by the HTTP collaborator for a response
status of 400 or above when throwing is enabled: it carries the status
and the request host. -/
def httpError (url : String) (status : Nat) : JsErr :=
  { statusCode := some status, name := some "HTTPError", host := some (urlHost url) }

/-- The error thrown when a response body fails to parse as JSON inside
the getJson helper of the HTTP collaborator. -/
def parseFailError : JsErr := { name := some "ParseError" }

/-- The error thrown by the JSON.parse builtin on malformed input. -/
def syntaxError : JsErr := { name := some "SyntaxError" }

/-- One HTTP GET: the URL is appended to the request log, the response
is looked up in the World (responses are modelled as a function of the
URL; the headers argument records what the source sends but does not
influence the modelled response), and when throwing is enabled a status
of 400 or above is raised as an HTTPError. -/
def addReq (s : WState) (url : String) : WState :=
  { s with requests := s.requests ++ [url] }

def httpGetM (url : String) (hdrs : Option (List (String × String)))
    (throwHttpErrors : Bool) : M HttpResponse := do
  M.modifyState fun s => addReq s url
  let w ← M.world
  match w.http url with
  | .resp r =>
      if throwHttpErrors = true ∧ 400 ≤ r.statusCode then
        M.throw (.js (httpError url r.statusCode))
      else M.pure r
  | .fail e => M.throw (.js e)

/-- The getJson helper of the HTTP collaborator: a throwing GET followed
by a JSON parse of the body. -/
def httpGetJsonM (url : String) (hdrs : Option (List (String × String))) :
    M JsonVal := do
  let r ← httpGetM url hdrs true
  match jsonParse r.body with
  | some j => M.pure j
  | none => M.throw (.js parseFailError)

/-- The JSON.parse builtin: throws a SyntaxError on malformed input. -/
def jsonParseM (body : String) : M JsonVal :=
  match jsonParse body with
  | some j => M.pure j
  | none => M.throw (.js syntaxError)

/-- Raw lookup of a cache entry: none when no entry exists for the
namespace and key, otherwise the stored value. -/
def lookupCache (es : List CacheEntry) (ns key : String) : Option (Option JsonVal) :=
  match es with
  | [] => none
  | e :: rest => if e.ns = ns ∧ e.key = key then some e.value else lookupCache rest ns key

/-- What the external cache get returns for a state: a missing entry and
a stored undefined are indistinguishable, both yield undefined. -/
def cachedVal (s : WState) (ns key : String) : Option JsonVal :=
  (lookupCache s.cache ns key).join

def cacheGetM (ns key : String) : M (Option JsonVal) := do
  let s ← M.getState
  M.pure (cachedVal s ns key)

def cacheSetM (ns key : String) (v : Option JsonVal) (ttl : Nat) : M Unit :=
  M.modifyState fun s => { s with cache := ⟨ns, key, v, ttl⟩ :: s.cache }

/-- The value getAuthHeaders produces: a headers object (possibly
empty), the JavaScript null of its declared return type, or the
undefined that falls out of returning a never-assigned field. -/
inductive AuthHeadersResult where
  | headers (h : List (String × String))
  | nullv
  | undef
deriving Repr, DecidableEq

/-- JavaScript truthiness of an AuthHeadersResult: any object, even
empty, is truthy; null and undefined are falsy. -/
def authTruthy : AuthHeadersResult → Bool
  | .headers _ => true
  | _ => false

/-- The error fields the catch of getAuthHeaders inspects.  The try
block of getAuthHeaders can only throw plain JavaScript errors, so the
external branch is unreachable there; its values mirror the Error
superclass defaults of the ExternalHostError class. -/
def errFields : DockerErr → JsErr
  | .js e => e
  | .external _ => { name := some "Error", message := some "external-host-error" }

/-- The constructor call new ExternalHostError applied to the caught
error.  The already-external case cannot arise at its use sites. -/
def wrapExternal : DockerErr → DockerErr
  | .js e => .external e
  | .external e => .external e

/-- Whether the status code of an error lies in the 5xx range. -/
def statusIn5xx (e : JsErr) : Bool :=
  match e.statusCode with
  | some n => decide (500 ≤ n ∧ n < 600)
  | none => false

/-- Set one field of a header object, the model of a JavaScript property
assignment on the headers record. -/
def putHeader (h : List (String × String)) (k v : String) :
    List (String × String) :=
  (h.filter fun p => decide (p.1 ≠ k)) ++ [(k, v)]

def apiCheckUrlOf (registry : String) : String := registry ++ "/v2/"

/-- The token-exchange URL built from the challenge parameters; missing
parameters are string-coerced to the word undefined exactly as the
template literal of the source does. -/
def authUrlOf (authenticateHeader : Challenge) (dockerRepository : String) : String :=
  jsStrOpt authenticateHeader.realm ++ "?service=" ++
    jsStrOpt authenticateHeader.service ++ "&scope=repository:" ++
    dockerRepository ++ ":pull"

/-- The headers field the source may set on its local credential record
before the scheme dispatch: from the vendor token service for an ECR
registry host, from Basic credentials otherwise.  The vendor call is
modelled as a lookup in the World (spec section 6), so the computation
is pure here. -/
def optsHeadersOf (w : World) (registry : String) (opts : HostRule) :
    Option (List (String × String)) :=
  match ecrMatch registry with
  | some region =>
      (match w.ecrToken region opts with
       | some auth => some [("authorization", "Basic " ++ auth)]
       | none => none)
  | none =>
      if optStrTruthy opts.username ∧ optStrTruthy opts.password then
        some [("authorization", "Basic " ++
          nodeBase64 (opts.username.getD "" ++ ":" ++ opts.password.getD ""))]
      else none

/-- The catch block of getAuthHeaders (common.ts lines 110 to 151). -/
def getAuthHeadersCatch (registry : String) (err : DockerErr) : M AuthHeadersResult :=
  let e := errFields err
  if e.host = some "quay.io" then M.pure .nullv
  else if e.statusCode = some 401 then M.pure .nullv
  else if e.statusCode = some 403 then M.pure .nullv
  else if e.name = some "RequestError" ∧ strEndsWith registry "docker.io" then
    M.throw (wrapExternal err)
  else if e.statusCode = some 429 ∧ strEndsWith registry "docker.io" then
    M.throw (wrapExternal err)
  else if statusIn5xx e then M.throw (wrapExternal err)
  else if e.message = some HOST_DISABLED then M.pure .nullv
  else M.pure .nullv

/-- The embedding of getAuthHeaders (common.ts lines 49 to 152).  The
source deletes username and password from its local copy of the
credential record before proceeding; the deletion has no observable
effect in the model because the record is not used afterwards. -/
def getAuthHeaders (registry dockerRepository : String) : M AuthHeadersResult :=
  M.tryCatch
    (do
      let apiCheckUrl := apiCheckUrlOf registry
      let apiCheckResponse ← httpGetM apiCheckUrl none false
      match lookupStr "www-authenticate" apiCheckResponse.headers with
      | none => M.pure (.headers [])
      | some challengeValue => do
        let authenticateHeader := parseChallenge challengeValue
        let w ← M.world
        let opts := w.hostRule apiCheckUrl
        let optsHeaders := optsHeadersOf w registry opts
        if strToUpper authenticateHeader.scheme = "BASIC" then do
          let _ ← httpGetM apiCheckUrl optsHeaders true
          M.pure (match optsHeaders with
                  | some h => .headers h
                  | none => .undef)
        else do
          let authUrl := authUrlOf authenticateHeader dockerRepository
          let authResponse ← httpGetJsonM authUrl optsHeaders
          let tokenA ← jsGetM (some authResponse) "token"
          let token ← if jsTruthy tokenA then M.pure tokenA
                      else jsGetM (some authResponse) "access_token"
          if jsTruthy token then
            M.pure (.headers [("authorization", "Bearer " ++ jsToString token)])
          else M.pure .nullv)
    (getAuthHeadersCatch registry)

def manifestUrlOf (registry dockerRepository tag : String) : String :=
  registry ++ "/v2/" ++ dockerRepository ++ "/manifests/" ++ tag

/-- The catch block of getManifestResponse (common.ts lines 235 to
284). -/
def getManifestResponseCatch (registry : String) (err : DockerErr) :
    M (Option HttpResponse) :=
  match err with
  | .external _ => M.throw err
  | .js e =>
    if e.statusCode = some 401 then M.pure none
    else if e.statusCode = some 404 then M.pure none
    else if e.statusCode = some 429 ∧ strEndsWith registry "docker.io" then
      M.throw (.external e)
    else if statusIn5xx e then M.throw (.external e)
    else if e.code = some "ETIMEDOUT" then M.pure none
    else M.pure none

/-- The embedding of getManifestResponse (common.ts lines 216 to 285). -/
def getManifestResponse (registry dockerRepository tag : String) :
    M (Option HttpResponse) :=
  M.tryCatch
    (do
      let headers ← getAuthHeaders registry dockerRepository
      match headers with
      | .nullv => M.pure none
      | .undef => M.pure none
      | .headers h => do
        let h2 := putHeader h "accept" acceptHeaderValue
        let url := manifestUrlOf registry dockerRepository tag
        let manifestResponse ← httpGetM url (some h2) true
        M.pure (some manifestResponse))
    (getManifestResponseCatch registry)

/-- The embedding of getConfigDigest (common.ts lines 287 to 334).  The
source recurses without a bound; the embedding spends one unit of fuel
per recursion step and raises the stack-overflow error when the fuel is
exhausted.  The source returns the digest value itself; conforming
responses carry a string there, and the embedding string-coerces it the
way its only consumer, a template literal, would. -/
def getConfigDigest : Nat → String → String → String → M (Option String)
  | 0, _, _, _ => M.throw (.js stackOverflowError)
  | fuel+1, registry, dockerRepository, tag => do
    let manifestResponse ← getManifestResponse registry dockerRepository tag
    match manifestResponse with
    | none => M.pure none
    | some mr => do
      let manifest ← jsonParseM mr.body
      let sv ← jsGetM (some manifest) "schemaVersion"
      if jsStrictEqNum sv 2 = false then M.pure none
      else do
        let mt ← jsGetM (some manifest) "mediaType"
        let isListWithEntries ←
          if jsStrictEqStr mt MediaType.manifestListV2 then do
            let ms ← jsGetM (some manifest) "manifests"
            let len ← jsGetM ms "length"
            M.pure (jsTruthy len)
          else M.pure false
        if isListWithEntries then do
          let ms ← jsGetM (some manifest) "manifests"
          let m0 ← jsIndexM ms 0
          let dg ← jsGetM m0 "digest"
          getConfigDigest fuel registry dockerRepository (jsToString dg)
        else
          if jsStrictEqStr mt MediaType.manifestV2 then do
            let config ← jsGetM (some manifest) "config"
            let dg ← match config with
                     | none => M.pure none
                     | some .null => M.pure none
                     | some c => jsGetM (some c) "digest"
            if jsTruthy dg then M.pure (some (jsToString dg)) else M.pure none
          else M.pure none

def cacheNamespaceLabels : String := "datasource-docker-labels"

def labelsCacheKey (registry dockerRepository tag : String) : String :=
  registry ++ ":" ++ dockerRepository ++ ":" ++ tag

def blobUrlOf (registry dockerRepository digest : String) : String :=
  registry ++ "/v2/" ++ dockerRepository ++ "/blobs/" ++ digest

/-- The empty JavaScript object literal returned on the non-fatal exits
of getLabels. -/
def emptyObj : Option JsonVal := some (.obj .nil)

/-- The catch block of getLabels (common.ts lines 389 to 440): an
ExternalHostError is re-thrown; every other branch of the cascade only
logs and falls through to the same empty-object return. -/
def getLabelsCatch (err : DockerErr) : M (Option JsonVal) :=
  match err with
  | .external _ => M.throw err
  | .js _ => M.pure emptyObj

/-- The embedding of getLabels (common.ts lines 343 to 441).  The
initial empty-object value of the labels variable is immediately
overwritten and is not modelled. -/
def getLabels (fuel : Nat) (registry dockerRepository tag : String) :
    M (Option JsonVal) := do
  let cacheKey := labelsCacheKey registry dockerRepository tag
  let cachedResult ← cacheGetM cacheNamespaceLabels cacheKey
  match cachedResult with
  | some v => M.pure (some v)
  | none =>
    M.tryCatch
      (do
        let configDigest ← getConfigDigest fuel registry dockerRepository tag
        if optStrTruthy configDigest = false then M.pure emptyObj
        else do
          let headers ← getAuthHeaders registry dockerRepository
          match headers with
          | .nullv => M.pure emptyObj
          | .undef => M.pure emptyObj
          | .headers h => do
            let url := blobUrlOf registry dockerRepository (configDigest.getD "")
            let configResponse ← httpGetM url (some h) true
            let parsed ← jsonParseM configResponse.body
            let config ← jsGetM (some parsed) "config"
            let labels ← jsGetM config "Labels"
            cacheSetM cacheNamespaceLabels cacheKey labels 60
            M.pure labels)
      getLabelsCatch

/-- The result record of the Repository Locator. -/
structure RegistryRepository where
  registry : String
  repository : String
deriving Repr, DecidableEq

def hasUrlScheme (s : String) : Bool :=
  strStartsWith s "http://" || strStartsWith s "https://"

def stripUrlScheme (s : String) : String :=
  if strStartsWith s "https://" then String.mk (s.data.drop 8)
  else if strStartsWith s "http://" then String.mk (s.data.drop 7)
  else s

/-- Modelled from the spec: ensureTrailingSlash of the url utility
module, which is not part of the provided sources. -/
def ensureTrailingSlash (s : String) : String :=
  if strEndsWith s "/" then s else s ++ "/"

/-- Modelled from the spec: trimTrailingSlash of the url utility module,
which is not part of the provided sources; it strips trailing slash
characters. -/
def trimTrailingSlash (s : String) : String :=
  String.mk ((s.data.reverse.dropWhile fun c => decide (c = '/')).reverse)

/-- The part of getRegistryRepository after its early return (common.ts
lines 173 to 199): split the lookup name, take a leading host-like
segment as the registry, canonicalize, apply the insecure-registry
downgrade, and add the implicit library namespace on Docker Hub. -/
def getRegistryRepositoryTail (w : World) (lookupName registryUrl : String) :
    RegistryRepository :=
  let split := strSplitOnChar '/' lookupName
  let firstSeg := split.headD ""
  let hasHost := decide (split.length > 1) &&
    (strContainsChar firstSeg '.' || strContainsChar firstSeg ':')
  let rest := if hasHost then split.tail else split
  let repository := String.intercalate "/" rest
  let registry1 := if hasHost then firstSeg else registryUrl
  let registry2 := if registry1 = "docker.io" then "index.docker.io" else registry1
  let registry3 := if hasUrlScheme registry2 then registry2 else "https://" ++ registry2
  let opts := w.hostRule registry3
  let registry4 := if opts.insecureRegistry then jsReplaceFirst registry3 "https" "http"
                   else registry3
  let repository2 :=
    if strEndsWith registry4 ".docker.io" ∧ strContainsChar repository '/' = false then
      "library/" ++ repository
    else repository
  { registry := registry4, repository := repository2 }

/-- The embedding of getRegistryRepository (common.ts lines 154 to
200). -/
def getRegistryRepository (w : World) (lookupName registryUrl : String) :
    RegistryRepository :=
  if registryUrl ≠ defaultRegistryUrl then
    let registryEndingWithSlash := ensureTrailingSlash (stripUrlScheme registryUrl)
    if strStartsWith lookupName registryEndingWithSlash then
      let r0 := trimTrailingSlash registryUrl
      { registry := if hasUrlScheme r0 then r0 else "https://" ++ r0
        repository := jsReplaceFirst lookupName registryEndingWithSlash "" }
    else getRegistryRepositoryTail w lookupName registryUrl
  else getRegistryRepositoryTail w lookupName registryUrl

/-! Concrete environments used by the closed evaluations below. -/

/-- A transport-level failure used as the default outcome for URLs a
scenario does not define; contacting one of them is an error in the
scenario itself. -/
def offlineErr : JsErr := { name := some "RequestError", code := some "ENOTFOUND" }

/-- An environment with no reachable network and no credentials. -/
def plainWorld : World :=
  { http := fun _ => .fail offlineErr
    hostRule := fun _ => {}
    ecrToken := fun _ _ => none }

/-- A single-image manifest body whose config digest is sha256:c1. -/
def manifestV2Body : String :=
  "\x7b\"schemaVersion\":2,\"mediaType\":\"application/vnd.docker.distribution.manifest.v2+json\",\"config\":\x7b\"digest\":\"sha256:c1\"\x7d\x7d"

/-- A manifest list body whose first entry has digest sha256:first. -/
def manifestListBody : String :=
  "\x7b\"schemaVersion\":2,\"mediaType\":\"application/vnd.docker.distribution.manifest.list.v2+json\",\"manifests\":[\x7b\"digest\":\"sha256:first\"\x7d]\x7d"

/-- A single-image manifest body whose config digest is sha256:abc. -/
def manifestImageAbcBody : String :=
  "\x7b\"schemaVersion\":2,\"mediaType\":\"application/vnd.docker.distribution.manifest.v2+json\",\"config\":\x7b\"digest\":\"sha256:abc\"\x7d\x7d"

/-- An anonymous registry whose manifest for tag 1.0 is a single-image
manifest and whose config blob answers with the given status and
body. -/
def chainWorld (registry : String) (blobStatus : Nat) (blobBody : String) : World :=
  { http := fun url =>
      if url = apiCheckUrlOf registry then .resp { statusCode := 200, headers := [], body := "" }
      else if url = manifestUrlOf registry "foo" "1.0" then
        .resp { statusCode := 200, headers := [], body := manifestV2Body }
      else if url = blobUrlOf registry "foo" "sha256:c1" then
        .resp { statusCode := blobStatus, headers := [], body := blobBody }
      else .fail offlineErr
    hostRule := fun _ => {}
    ecrToken := fun _ _ => none }

/-- An anonymous registry whose manifest fetch answers with the given
status. -/
def manifestStatusWorld (registry : String) (st : Nat) : World :=
  { http := fun url =>
      if url = apiCheckUrlOf registry then .resp { statusCode := 200, headers := [], body := "" }
      else if url = manifestUrlOf registry "foo" "1.0" then
        .resp { statusCode := st, headers := [], body := "" }
      else .fail offlineErr
    hostRule := fun _ => {}
    ecrToken := fun _ _ => none }

/-- A registry whose unauthenticated probe answers with the given
status and no challenge header. -/
def probeStatusWorld (registry : String) (st : Nat) : World :=
  { http := fun url =>
      if url = apiCheckUrlOf registry then .resp { statusCode := st, headers := [], body := "" }
      else .fail offlineErr
    hostRule := fun _ => {}
    ecrToken := fun _ _ => none }

/-- A registry that challenges with a bearer-token realm and whose token
endpoint answers with the given status. -/
def bearerWorld (registry : String) (tokenStatus : Nat) : World :=
  { http := fun url =>
      if url = apiCheckUrlOf registry then
        .resp { statusCode := 401
                headers := [("www-authenticate",
                  "Bearer realm=\"https://auth.example.com/token\",service=\"svc\"")]
                body := "" }
      else if url = "https://auth.example.com/token?service=svc&scope=repository:foo:pull" then
        .resp { statusCode := tokenStatus, headers := [], body := "" }
      else .fail offlineErr
    hostRule := fun _ => {}
    ecrToken := fun _ _ => none }

/-- A registry that challenges with the Basic scheme, answering the
probe with the given status. -/
def basicWorld (st : Nat) : World :=
  { http := fun url =>
      if url = apiCheckUrlOf "https://basic.example.com" then
        .resp { statusCode := st
                headers := [("www-authenticate", "Basic realm=\"Registry\"")]
                body := "" }
      else .fail offlineErr
    hostRule := fun _ => {}
    ecrToken := fun _ _ => none }

/-- An anonymous registry serving a manifest list for tag 1.0 whose
first entry resolves to a single-image manifest with config digest
sha256:abc; the second-level manifest fetch can instead be made to fail
with the given status when failSecond is true. -/
def listWorld (registry : String) (failSecond : Bool) : World :=
  { http := fun url =>
      if url = apiCheckUrlOf registry then .resp { statusCode := 200, headers := [], body := "" }
      else if url = manifestUrlOf registry "foo" "1.0" then
        .resp { statusCode := 200, headers := [], body := manifestListBody }
      else if url = manifestUrlOf registry "foo" "sha256:first" then
        (if failSecond then .resp { statusCode := 500, headers := [], body := "" }
         else .resp { statusCode := 200, headers := [], body := manifestImageAbcBody })
      else .fail offlineErr
    hostRule := fun _ => {}
    ecrToken := fun _ _ => none }

/-- An anonymous registry serving, by tag, manifest bodies of the
degenerate shapes: a foreign media type, a manifest list with an empty
entry list, a manifest list without a manifests field, and a
schema-version-1 body. -/
def shapeWorld (registry : String) : World :=
  { http := fun url =>
      if url = apiCheckUrlOf registry then .resp { statusCode := 200, headers := [], body := "" }
      else if url = manifestUrlOf registry "foo" "other" then
        .resp { statusCode := 200, headers := [], body := "\x7b\"schemaVersion\":2,\"mediaType\":\"application/foo\"\x7d" }
      else if url = manifestUrlOf registry "foo" "empty" then
        .resp { statusCode := 200, headers := [],
                body := "\x7b\"schemaVersion\":2,\"mediaType\":\"application/vnd.docker.distribution.manifest.list.v2+json\",\"manifests\":[]\x7d" }
      else if url = manifestUrlOf registry "foo" "absent" then
        .resp { statusCode := 200, headers := [],
                body := "\x7b\"schemaVersion\":2,\"mediaType\":\"application/vnd.docker.distribution.manifest.list.v2+json\"\x7d" }
      else if url = manifestUrlOf registry "foo" "schema1" then
        .resp { statusCode := 200, headers := [], body := "\x7b\"schemaVersion\":1\x7d" }
      else .fail offlineErr
    hostRule := fun _ => {}
    ecrToken := fun _ _ => none }

/-! Evaluation lemmas for runs of the embedded operations.  These are
shared infrastructure; the claim theorems follow after them. -/

theorem httpGetM_resp_run (w : World) (s : WState) (url : String)
    (hd : Option (List (String × String))) (b : Bool) (r : HttpResponse)
    (hw : w.http url = .resp r) :
    httpGetM url hd b w s =
      (if b = true ∧ 400 ≤ r.statusCode then
        (.error (.js (httpError url r.statusCode)), addReq s url)
      else (.ok r, addReq s url)) := by
  simp only [httpGetM, M.bind_eq, M.bind, M.modifyState, M.world, hw]
  rcases Decidable.em (b = true ∧ 400 ≤ r.statusCode) with h | h
  · simp [h, M.throw]
  · simp [h, M.pure]

theorem httpGetM_fail_run (w : World) (s : WState) (url : String)
    (hd : Option (List (String × String))) (b : Bool) (e : JsErr)
    (hw : w.http url = .fail e) :
    httpGetM url hd b w s = (.error (.js e), addReq s url) := by
  simp only [httpGetM, M.bind_eq, M.bind, M.modifyState, M.world, hw, M.throw]

theorem getAuthHeaders_noChallenge_run (w : World) (s : WState)
    (registry repo : String) (r : HttpResponse)
    (hw : w.http (apiCheckUrlOf registry) = .resp r)
    (hh : lookupStr "www-authenticate" r.headers = none) :
    getAuthHeaders registry repo w s =
      (.ok (.headers []), addReq s (apiCheckUrlOf registry)) := by
  unfold getAuthHeaders M.tryCatch
  simp only [M.bind_eq, M.bind]
  rw [httpGetM_resp_run w s _ none false r hw]
  simp [hh, M.pure]

theorem httpGetM_noThrow_run (w : World) (s : WState) (url : String)
    (hd : Option (List (String × String))) (r : HttpResponse)
    (hw : w.http url = .resp r) :
    httpGetM url hd false w s = (.ok r, addReq s url) := by
  rw [httpGetM_resp_run w s url hd false r hw]
  exact if_neg (fun hc => Bool.noConfusion hc.1)

theorem httpGetM_throwOk_run (w : World) (s : WState) (url : String)
    (hd : Option (List (String × String))) (r : HttpResponse)
    (hw : w.http url = .resp r) (hst : r.statusCode < 400) :
    httpGetM url hd true w s = (.ok r, addReq s url) := by
  rw [httpGetM_resp_run w s url hd true r hw]
  exact if_neg (by omega)

theorem httpGetM_throwErr_run (w : World) (s : WState) (url : String)
    (hd : Option (List (String × String))) (r : HttpResponse)
    (hw : w.http url = .resp r) (hst : 400 ≤ r.statusCode) :
    httpGetM url hd true w s =
      (.error (.js (httpError url r.statusCode)), addReq s url) := by
  rw [httpGetM_resp_run w s url hd true r hw]
  exact if_pos ⟨rfl, hst⟩

theorem getAuthHeaders_basicVerified_run (w : World) (s : WState)
    (registry repo : String) (r : HttpResponse) (ch : String)
    (hw : w.http (apiCheckUrlOf registry) = .resp r)
    (hch : lookupStr "www-authenticate" r.headers = some ch)
    (hsch : strToUpper (parseChallenge ch).scheme = "BASIC")
    (hst : r.statusCode < 400) :
    getAuthHeaders registry repo w s =
      (.ok (match optsHeadersOf w registry (w.hostRule (apiCheckUrlOf registry)) with
            | some h => .headers h
            | none => .undef),
       addReq (addReq s (apiCheckUrlOf registry)) (apiCheckUrlOf registry)) := by
  unfold getAuthHeaders M.tryCatch
  simp only [M.bind_eq, M.bind]
  simp only [httpGetM_noThrow_run w s _ none r hw, hch]
  simp only [M.world, M.bind, hsch, eq_self_iff_true, if_true]
  simp only [httpGetM_throwOk_run w (addReq s (apiCheckUrlOf registry)) _ _ r hw hst]
  simp [M.pure]

theorem getAuthHeaders_bearerStatus_run (w : World) (s : WState)
    (registry repo : String) (r0 r1 : HttpResponse) (ch : String)
    (hw0 : w.http (apiCheckUrlOf registry) = .resp r0)
    (hch : lookupStr "www-authenticate" r0.headers = some ch)
    (hsch : strToUpper (parseChallenge ch).scheme ≠ "BASIC")
    (hw1 : w.http (authUrlOf (parseChallenge ch) repo) = .resp r1)
    (hst : 400 ≤ r1.statusCode) :
    getAuthHeaders registry repo w s =
      getAuthHeadersCatch registry
        (.js (httpError (authUrlOf (parseChallenge ch) repo) r1.statusCode)) w
        (addReq (addReq s (apiCheckUrlOf registry))
          (authUrlOf (parseChallenge ch) repo)) := by
  unfold getAuthHeaders M.tryCatch
  simp only [M.bind_eq, M.bind]
  simp only [httpGetM_noThrow_run w s _ none r0 hw0, hch]
  simp only [M.world, M.bind, if_neg hsch]
  simp only [httpGetJsonM, M.bind_eq, M.bind]
  simp only [httpGetM_throwErr_run w (addReq s (apiCheckUrlOf registry)) _ _ r1 hw1 hst]

theorem getAuthHeadersCatch_status_run (registry url : String) (st : Nat)
    (hq : urlHost url ≠ "quay.io") (h1 : st ≠ 401) (h3 : st ≠ 403) :
    getAuthHeadersCatch registry (.js (httpError url st)) =
      (if st = 429 ∧ strEndsWith registry "docker.io" = true then
        M.throw (.external (httpError url st))
      else if 500 ≤ st ∧ st < 600 then M.throw (.external (httpError url st))
      else M.pure .nullv) := by
  rcases Decidable.em (st = 429) with h429 | h429 <;>
    rcases Decidable.em (strEndsWith registry "docker.io" = true) with hend | hend <;>
      simp [getAuthHeadersCatch, errFields, httpError, statusIn5xx, wrapExternal,
        hq, h1, h3, h429, hend, decide_eq_true_eq]

theorem getManifestResponseCatch_status_run (registry url : String) (st : Nat)
    (h1 : st ≠ 401) (h4 : st ≠ 404) :
    getManifestResponseCatch registry (.js (httpError url st)) =
      (if st = 429 ∧ strEndsWith registry "docker.io" = true then
        M.throw (.external (httpError url st))
      else if 500 ≤ st ∧ st < 600 then M.throw (.external (httpError url st))
      else M.pure none) := by
  rcases Decidable.em (st = 429) with h429 | h429 <;>
    rcases Decidable.em (strEndsWith registry "docker.io" = true) with hend | hend <;>
      simp [getManifestResponseCatch, httpError, statusIn5xx,
        h1, h4, h429, hend, decide_eq_true_eq]

theorem getManifestResponse_authErr_run (w : World) (s s1 : WState)
    (registry repo tag : String) (e : JsErr)
    (hAuth : getAuthHeaders registry repo w s = (.error (.external e), s1)) :
    getManifestResponse registry repo tag w s = (.error (.external e), s1) := by
  unfold getManifestResponse M.tryCatch
  simp only [M.bind_eq, M.bind, hAuth]
  rfl

theorem getManifestResponse_falsyAuth_run (w : World) (s s1 : WState)
    (registry repo tag : String) (a : AuthHeadersResult)
    (hAuth : getAuthHeaders registry repo w s = (.ok a, s1))
    (hFalsy : authTruthy a = false) :
    getManifestResponse registry repo tag w s = (.ok none, s1) := by
  unfold getManifestResponse M.tryCatch
  simp only [M.bind_eq, M.bind, hAuth]
  cases a with
  | headers h => simp [authTruthy] at hFalsy
  | nullv => rfl
  | undef => rfl

theorem getManifestResponse_fetch_run (w : World) (s s1 : WState)
    (registry repo tag : String) (h : List (String × String)) (r : HttpResponse)
    (hAuth : getAuthHeaders registry repo w s = (.ok (.headers h), s1))
    (hw : w.http (manifestUrlOf registry repo tag) = .resp r) :
    getManifestResponse registry repo tag w s =
      (if 400 ≤ r.statusCode then
        getManifestResponseCatch registry
          (.js (httpError (manifestUrlOf registry repo tag) r.statusCode)) w
          (addReq s1 (manifestUrlOf registry repo tag))
      else (.ok (some r), addReq s1 (manifestUrlOf registry repo tag))) := by
  unfold getManifestResponse M.tryCatch
  simp only [M.bind_eq, M.bind, hAuth]
  rcases Decidable.em (400 ≤ r.statusCode) with hst | hst
  · simp only [httpGetM_throwErr_run w s1 _ _ r hw hst]
    rw [if_pos hst]
  · simp only [httpGetM_throwOk_run w s1 _ _ r hw (by omega)]
    rw [if_neg hst]
    rfl

theorem getConfigDigest_manErr_run (w : World) (s s1 : WState) (fuel : Nat)
    (registry repo tag : String) (e : DockerErr)
    (hMan : getManifestResponse registry repo tag w s = (.error e, s1)) :
    getConfigDigest (fuel + 1) registry repo tag w s = (.error e, s1) := by
  unfold getConfigDigest
  simp only [M.bind_eq, M.bind, hMan]

theorem getConfigDigest_noMan_run (w : World) (s s1 : WState) (fuel : Nat)
    (registry repo tag : String)
    (hMan : getManifestResponse registry repo tag w s = (.ok none, s1)) :
    getConfigDigest (fuel + 1) registry repo tag w s = (.ok none, s1) := by
  unfold getConfigDigest
  simp only [M.bind_eq, M.bind, hMan]
  rfl

theorem getConfigDigest_schemaNot2_run (w : World) (s s1 : WState) (fuel : Nat)
    (registry repo tag : String) (mr : HttpResponse)
    (fs : JsonObj) (v : JsonVal)
    (hMan : getManifestResponse registry repo tag w s = (.ok (some mr), s1))
    (hParse : jsonParse mr.body = some (.obj fs))
    (hSv : fs.lookup "schemaVersion" = some v)
    (hNe : jsStrictEqNum (some v) 2 = false) :
    getConfigDigest (fuel + 1) registry repo tag w s = (.ok none, s1) := by
  unfold getConfigDigest
  simp only [M.bind_eq, M.bind, hMan, jsonParseM, hParse, M.pure, jsGetM, hSv, hNe]
  simp [M.pure]

theorem getConfigDigest_listRecurse_run (w : World) (s s1 : WState) (fuel : Nat)
    (registry repo tag : String) (mr : HttpResponse)
    (fs m0fs : JsonObj) (ms : JsonArr) (dv : JsonVal)
    (hMan : getManifestResponse registry repo tag w s = (.ok (some mr), s1))
    (hParse : jsonParse mr.body = some (.obj fs))
    (hSv : fs.lookup "schemaVersion" = some (.num 2))
    (hMt : fs.lookup "mediaType" = some (.str MediaType.manifestListV2))
    (hMs : fs.lookup "manifests" = some (.arr (.cons (.obj m0fs) ms)))
    (hDig : m0fs.lookup "digest" = some dv) :
    getConfigDigest (fuel + 1) registry repo tag w s =
      getConfigDigest fuel registry repo (jsValToString dv) w s1 := by
  simp only [getConfigDigest]
  simp only [M.bind_eq, M.bind, hMan, jsonParseM, hParse, M.pure, jsGetM, hSv,
    hMt, hMs, jsStrictEqNum, jsStrictEqStr, jsTruthy, jsIndexM, hDig,
    JsonArr.get?, JsonArr.length, jsToString]
  simp [M.pure, M.bind, jsToString, JsonArr.length]
  rw [if_neg (by omega)]
  simp [M.pure, M.bind, hDig, jsToString, JsonArr.get?]

theorem getConfigDigest_otherMedia_run (w : World) (s s1 : WState) (fuel : Nat)
    (registry repo tag : String) (mr : HttpResponse)
    (fs : JsonObj)
    (hMan : getManifestResponse registry repo tag w s = (.ok (some mr), s1))
    (hParse : jsonParse mr.body = some (.obj fs))
    (hSv : fs.lookup "schemaVersion" = some (.num 2))
    (hNotList : jsStrictEqStr (fs.lookup "mediaType") MediaType.manifestListV2 = false)
    (hNotV2 : jsStrictEqStr (fs.lookup "mediaType") MediaType.manifestV2 = false) :
    getConfigDigest (fuel + 1) registry repo tag w s = (.ok none, s1) := by
  simp only [getConfigDigest]
  simp only [M.bind_eq, M.bind, hMan, jsonParseM, hParse, M.pure, jsGetM, hSv,
    hNotList, hNotV2, jsStrictEqNum]
  simp [M.pure, M.bind, hNotList, hNotV2]

theorem getConfigDigest_emptyList_run (w : World) (s s1 : WState) (fuel : Nat)
    (registry repo tag : String) (mr : HttpResponse)
    (fs : JsonObj)
    (hMan : getManifestResponse registry repo tag w s = (.ok (some mr), s1))
    (hParse : jsonParse mr.body = some (.obj fs))
    (hSv : fs.lookup "schemaVersion" = some (.num 2))
    (hMt : fs.lookup "mediaType" = some (.str MediaType.manifestListV2))
    (hMs : fs.lookup "manifests" = some (.arr .nil)) :
    getConfigDigest (fuel + 1) registry repo tag w s = (.ok none, s1) := by
  simp only [getConfigDigest]
  simp only [M.bind_eq, M.bind, hMan, jsonParseM, hParse, M.pure, jsGetM, hSv,
    hMt, hMs, jsStrictEqNum, jsStrictEqStr, jsTruthy, JsonArr.length]
  simp [M.pure, M.bind, JsonArr.length]
  rw [if_neg (by decide)]
  rfl

theorem getConfigDigest_absentManifests_run (w : World) (s s1 : WState) (fuel : Nat)
    (registry repo tag : String) (mr : HttpResponse)
    (fs : JsonObj)
    (hMan : getManifestResponse registry repo tag w s = (.ok (some mr), s1))
    (hParse : jsonParse mr.body = some (.obj fs))
    (hSv : fs.lookup "schemaVersion" = some (.num 2))
    (hMt : fs.lookup "mediaType" = some (.str MediaType.manifestListV2))
    (hMs : fs.lookup "manifests" = none) :
    getConfigDigest (fuel + 1) registry repo tag w s =
      (.error (.js typeError), s1) := by
  simp only [getConfigDigest]
  simp only [M.bind_eq, M.bind, hMan, jsonParseM, hParse, M.pure, jsGetM, hSv,
    hMt, hMs, jsStrictEqNum, jsStrictEqStr]
  simp [M.pure, M.bind, M.throw]

theorem getLabels_cacheHit_run (w : World) (s : WState) (fuel : Nat)
    (registry repo tag : String) (v : JsonVal)
    (hHit : cachedVal s cacheNamespaceLabels (labelsCacheKey registry repo tag) =
      some v) :
    getLabels fuel registry repo tag w s = (.ok (some v), s) := by
  unfold getLabels
  simp only [M.bind_eq, M.bind, cacheGetM, M.getState, M.pure, hHit]

theorem getLabels_digExternal_run (w : World) (s s1 : WState) (fuel : Nat)
    (registry repo tag : String) (e : JsErr)
    (hMiss : cachedVal s cacheNamespaceLabels (labelsCacheKey registry repo tag) =
      none)
    (hDig : getConfigDigest fuel registry repo tag w s = (.error (.external e), s1)) :
    getLabels fuel registry repo tag w s = (.error (.external e), s1) := by
  unfold getLabels M.tryCatch
  simp only [M.bind_eq, M.bind, cacheGetM, M.getState, M.pure, hMiss, hDig]
  rfl

theorem getLabels_blobStatus_run (w : World) (s s1 s2 : WState) (fuel : Nat)
    (registry repo tag d : String) (h : List (String × String)) (r : HttpResponse)
    (hMiss : cachedVal s cacheNamespaceLabels (labelsCacheKey registry repo tag) =
      none)
    (hDig : getConfigDigest fuel registry repo tag w s = (.ok (some d), s1))
    (hdne : d ≠ "")
    (hAuth : getAuthHeaders registry repo w s1 = (.ok (.headers h), s2))
    (hw : w.http (blobUrlOf registry repo d) = .resp r)
    (hst : 400 ≤ r.statusCode) :
    getLabels fuel registry repo tag w s =
      (.ok emptyObj, addReq s2 (blobUrlOf registry repo d)) := by
  unfold getLabels M.tryCatch
  simp only [M.bind_eq, M.bind, cacheGetM, M.getState, M.pure, hMiss, hDig,
    optStrTruthy, hdne, hAuth]
  rw [if_neg (by simp [hdne])]
  simp only [M.bind, hAuth, Option.getD]
  simp only [httpGetM_throwErr_run w s2 _ _ r hw hst]
  rfl

/-! The claim theorems. -/

/-- C7: when the labels cache holds a stored result (including an empty
mapping) for the registry, repository and tag of the call, getLabels
returns the cached value verbatim and leaves the state unchanged, so no
network request is issued; TTL expiry is the external cache
collaborator's concern and corresponds to the entry being absent. -/
theorem claim_C7 (w : World) (s : WState) (fuel : Nat)
    (registry repo tag : String) (v : JsonVal)
    (hHit : cachedVal s cacheNamespaceLabels (labelsCacheKey registry repo tag) =
      some v) :
    getLabels fuel registry repo tag w s = (.ok (some v), s) :=
  getLabels_cacheHit_run w s fuel registry repo tag v hHit

/-- Witness for C7: a cached empty mapping is returned unchanged even in
an environment whose every network request would fail. -/
theorem claim_C7_witness :
    getLabels 0 "https://r.example.com" "p" "t" plainWorld
      { requests := [],
        cache := [⟨cacheNamespaceLabels, "https://r.example.com:p:t", some (.obj .nil), 60⟩] } =
      (.ok (some (.obj .nil)),
       { requests := [],
         cache := [⟨cacheNamespaceLabels, "https://r.example.com:p:t", some (.obj .nil), 60⟩] }) :=
  claim_C7 plainWorld _ 0 "https://r.example.com" "p" "t" (.obj .nil) (by rfl)

/-- C8: a manifest response whose parsed JSON body carries a
schemaVersion field whose value is not the number 2 makes
getConfigDigest return null without raising. -/
theorem claim_C8 (w : World) (s s1 : WState) (fuel : Nat)
    (registry repo tag : String) (mr : HttpResponse)
    (fs : JsonObj) (v : JsonVal)
    (hMan : getManifestResponse registry repo tag w s = (.ok (some mr), s1))
    (hParse : jsonParse mr.body = some (.obj fs))
    (hSv : fs.lookup "schemaVersion" = some v)
    (hNe : jsStrictEqNum (some v) 2 = false) :
    getConfigDigest (fuel + 1) registry repo tag w s = (.ok none, s1) :=
  getConfigDigest_schemaNot2_run w s s1 fuel registry repo tag mr fs v
    hMan hParse hSv hNe

/-- Witness for C8: a schema-version-1 body yields null. -/
theorem claim_C8_witness :
    getConfigDigest 1 "https://reg.example.com" "foo" "schema1"
      (shapeWorld "https://reg.example.com") {} =
      (.ok none,
       { requests := [apiCheckUrlOf "https://reg.example.com",
                      manifestUrlOf "https://reg.example.com" "foo" "schema1"],
         cache := [] }) :=
  claim_C8 (shapeWorld "https://reg.example.com") {} _ 0
    "https://reg.example.com" "foo" "schema1"
    { statusCode := 200, headers := [], body := "\x7b\"schemaVersion\":1\x7d" }
    (.cons "schemaVersion" (.num 1) .nil) (.num 1)
    (by rfl) (by rfl) (by rfl) (by rfl)

/-- C5: a host-fatal ExternalHostError raised by an inner call passes
through every enclosing operation unchanged: from getAuthHeaders through
getManifestResponse, from getManifestResponse through getConfigDigest,
from getConfigDigest through getLabels (past its cache miss), and from a
recursive getConfigDigest step through the enclosing step. -/
theorem claim_C5 (w : World) (s s1 : WState) (fuel : Nat)
    (registry repo tag : String) (e : JsErr) :
    (getAuthHeaders registry repo w s = (.error (.external e), s1) →
      getManifestResponse registry repo tag w s = (.error (.external e), s1)) ∧
    (getManifestResponse registry repo tag w s = (.error (.external e), s1) →
      getConfigDigest (fuel + 1) registry repo tag w s = (.error (.external e), s1)) ∧
    (cachedVal s cacheNamespaceLabels (labelsCacheKey registry repo tag) = none →
      getConfigDigest fuel registry repo tag w s = (.error (.external e), s1) →
      getLabels fuel registry repo tag w s = (.error (.external e), s1)) ∧
    (∀ (s0 : WState) (mr : HttpResponse) (fs m0fs : JsonObj) (ms : JsonArr)
        (dv : JsonVal),
      getManifestResponse registry repo tag w s = (.ok (some mr), s0) →
      jsonParse mr.body = some (.obj fs) →
      fs.lookup "schemaVersion" = some (.num 2) →
      fs.lookup "mediaType" = some (.str MediaType.manifestListV2) →
      fs.lookup "manifests" = some (.arr (.cons (.obj m0fs) ms)) →
      m0fs.lookup "digest" = some dv →
      getConfigDigest fuel registry repo (jsValToString dv) w s0 =
        (.error (.external e), s1) →
      getConfigDigest (fuel + 1) registry repo tag w s = (.error (.external e), s1)) :=
  ⟨fun h => getManifestResponse_authErr_run w s s1 registry repo tag e h,
   fun h => getConfigDigest_manErr_run w s s1 fuel registry repo tag _ h,
   fun hm hd => getLabels_digExternal_run w s s1 fuel registry repo tag e hm hd,
   fun s0 mr fs m0fs ms dv h1 h2 h3 h4 h5 h6 h7 =>
     (getConfigDigest_listRecurse_run w s s0 fuel registry repo tag mr fs m0fs
       ms dv h1 h2 h3 h4 h5 h6).trans h7⟩

/-- Witness for C5: against a registry whose token exchange answers 500,
the ExternalHostError raised inside getAuthHeaders reappears identically
from getManifestResponse, getConfigDigest and getLabels; and against a
registry whose manifest list points at a failing second-level manifest,
the inner recursion's ExternalHostError reappears from the outer
getConfigDigest step. -/
theorem claim_C5_witness :
    getManifestResponse "https://index.docker.io" "foo" "1.0"
      (bearerWorld "https://index.docker.io" 500) {} =
      (.error (.external
        (httpError "https://auth.example.com/token?service=svc&scope=repository:foo:pull" 500)),
       { requests := ["https://index.docker.io/v2/",
                      "https://auth.example.com/token?service=svc&scope=repository:foo:pull"],
         cache := [] }) ∧
    getConfigDigest 1 "https://index.docker.io" "foo" "1.0"
      (bearerWorld "https://index.docker.io" 500) {} =
      (.error (.external
        (httpError "https://auth.example.com/token?service=svc&scope=repository:foo:pull" 500)),
       { requests := ["https://index.docker.io/v2/",
                      "https://auth.example.com/token?service=svc&scope=repository:foo:pull"],
         cache := [] }) ∧
    getLabels 1 "https://index.docker.io" "foo" "1.0"
      (bearerWorld "https://index.docker.io" 500) {} =
      (.error (.external
        (httpError "https://auth.example.com/token?service=svc&scope=repository:foo:pull" 500)),
       { requests := ["https://index.docker.io/v2/",
                      "https://auth.example.com/token?service=svc&scope=repository:foo:pull"],
         cache := [] }) ∧
    getConfigDigest 2 "https://reg.example.com" "foo" "1.0"
      (listWorld "https://reg.example.com" true) {} =
      (.error (.external
        (httpError (manifestUrlOf "https://reg.example.com" "foo" "sha256:first") 500)),
       { requests := ["https://reg.example.com/v2/",
                      manifestUrlOf "https://reg.example.com" "foo" "1.0",
                      "https://reg.example.com/v2/",
                      manifestUrlOf "https://reg.example.com" "foo" "sha256:first"],
         cache := [] }) :=
  ⟨(claim_C5 (bearerWorld "https://index.docker.io" 500) {} _ 0
      "https://index.docker.io" "foo" "1.0" _).1 (by rfl),
   (claim_C5 (bearerWorld "https://index.docker.io" 500) {} _ 0
      "https://index.docker.io" "foo" "1.0" _).2.1 (by rfl),
   (claim_C5 (bearerWorld "https://index.docker.io" 500) {} _ 1
      "https://index.docker.io" "foo" "1.0" _).2.2.1 (by rfl) (by rfl),
   (claim_C5 (listWorld "https://reg.example.com" true) {} _ 1
      "https://reg.example.com" "foo" "1.0" _).2.2.2
     { requests := ["https://reg.example.com/v2/",
                    manifestUrlOf "https://reg.example.com" "foo" "1.0"],
       cache := [] }
     { statusCode := 200, headers := [], body := manifestListBody }
     (.cons "schemaVersion" (.num 2)
       (.cons "mediaType" (.str MediaType.manifestListV2)
         (.cons "manifests"
           (.arr (.cons (.obj (.cons "digest" (.str "sha256:first") .nil)) .nil))
           .nil)))
     (.cons "digest" (.str "sha256:first") .nil) .nil (.str "sha256:first")
     (by rfl) (by rfl) (by rfl) (by rfl) (by rfl) (by rfl) (by rfl)⟩

/-- C6: a schemaVersion-2 manifest list with at least one entry makes
getConfigDigest recurse with the first listed manifest's digest as the
new tag argument; and in the concrete two-level scenario where that
digest resolves to a single-image manifest with config digest
sha256:abc, getConfigDigest returns sha256:abc. -/
theorem claim_C6 (w : World) (s s1 : WState) (fuel : Nat)
    (registry repo tag : String) (mr : HttpResponse)
    (fs m0fs : JsonObj) (ms : JsonArr) (dv : JsonVal)
    (hMan : getManifestResponse registry repo tag w s = (.ok (some mr), s1))
    (hParse : jsonParse mr.body = some (.obj fs))
    (hSv : fs.lookup "schemaVersion" = some (.num 2))
    (hMt : fs.lookup "mediaType" = some (.str MediaType.manifestListV2))
    (hMs : fs.lookup "manifests" = some (.arr (.cons (.obj m0fs) ms)))
    (hDig : m0fs.lookup "digest" = some dv) :
    getConfigDigest (fuel + 1) registry repo tag w s =
      getConfigDigest fuel registry repo (jsValToString dv) w s1 ∧
    getConfigDigest 2 "https://reg.example.com" "foo" "1.0"
      (listWorld "https://reg.example.com" false) {} =
      (.ok (some "sha256:abc"),
       { requests := ["https://reg.example.com/v2/",
                      manifestUrlOf "https://reg.example.com" "foo" "1.0",
                      "https://reg.example.com/v2/",
                      manifestUrlOf "https://reg.example.com" "foo" "sha256:first"],
         cache := [] }) :=
  ⟨getConfigDigest_listRecurse_run w s s1 fuel registry repo tag mr fs m0fs
     ms dv hMan hParse hSv hMt hMs hDig,
   by rfl⟩

/-- Witness for C6: in the concrete manifest-list scenario the first
recursion step rewrites the tag to the first entry's digest, and the
whole resolution returns sha256:abc. -/
theorem claim_C6_witness :
    (getConfigDigest 2 "https://reg.example.com" "foo" "1.0"
        (listWorld "https://reg.example.com" false) {} =
      getConfigDigest 1 "https://reg.example.com" "foo"
        (jsValToString (.str "sha256:first"))
        (listWorld "https://reg.example.com" false)
        { requests := ["https://reg.example.com/v2/",
                       manifestUrlOf "https://reg.example.com" "foo" "1.0"],
          cache := [] }) ∧
    getConfigDigest 2 "https://reg.example.com" "foo" "1.0"
      (listWorld "https://reg.example.com" false) {} =
      (.ok (some "sha256:abc"),
       { requests := ["https://reg.example.com/v2/",
                      manifestUrlOf "https://reg.example.com" "foo" "1.0",
                      "https://reg.example.com/v2/",
                      manifestUrlOf "https://reg.example.com" "foo" "sha256:first"],
         cache := [] }) :=
  claim_C6 (listWorld "https://reg.example.com" false) {}
    { requests := ["https://reg.example.com/v2/",
                   manifestUrlOf "https://reg.example.com" "foo" "1.0"],
      cache := [] }
    1 "https://reg.example.com" "foo" "1.0"
    { statusCode := 200, headers := [], body := manifestListBody }
    (.cons "schemaVersion" (.num 2)
      (.cons "mediaType" (.str MediaType.manifestListV2)
        (.cons "manifests"
          (.arr (.cons (.obj (.cons "digest" (.str "sha256:first") .nil)) .nil))
          .nil)))
    (.cons "digest" (.str "sha256:first") .nil) .nil (.str "sha256:first")
    (by rfl) (by rfl) (by rfl) (by rfl) (by rfl) (by rfl)

/-- C1, amended: a 429 status on the manifest fetch raises the
host-fatal ExternalHostError exactly when the registry URL string ends
with docker.io, a condition satisfied by the default public registry but
also by unrelated registries with that suffix; a 429 on the blob fetch
inside getLabels is caught and yields the empty mapping for every
registry; and the unauthenticated probe never throws on a status, a 429
challenge-free probe response yielding the empty headers object. -/
theorem claim_C1_amended (w : World) (s s1 s2 : WState) (fuel : Nat)
    (registry repo tag d : String) (h : List (String × String))
    (r rp rb : HttpResponse) :
    (getAuthHeaders registry repo w s = (.ok (.headers h), s1) →
     w.http (manifestUrlOf registry repo tag) = .resp r →
     r.statusCode = 429 →
     getManifestResponse registry repo tag w s =
       (if strEndsWith registry "docker.io" = true then
         (.error (.external (httpError (manifestUrlOf registry repo tag) 429)),
          addReq s1 (manifestUrlOf registry repo tag))
       else (.ok none, addReq s1 (manifestUrlOf registry repo tag)))) ∧
    (cachedVal s cacheNamespaceLabels (labelsCacheKey registry repo tag) = none →
     getConfigDigest fuel registry repo tag w s = (.ok (some d), s1) →
     d ≠ "" →
     getAuthHeaders registry repo w s1 = (.ok (.headers h), s2) →
     w.http (blobUrlOf registry repo d) = .resp rb →
     rb.statusCode = 429 →
     getLabels fuel registry repo tag w s =
       (.ok emptyObj, addReq s2 (blobUrlOf registry repo d))) ∧
    (w.http (apiCheckUrlOf registry) = .resp rp →
     rp.statusCode = 429 →
     lookupStr "www-authenticate" rp.headers = none →
     getAuthHeaders registry repo w s =
       (.ok (.headers []), addReq s (apiCheckUrlOf registry))) := by
  refine ⟨fun hAuth hw hst => ?_, fun hMiss hDig hd hAuth hw hst => ?_,
    fun hw hst hh => ?_⟩
  · have h1 := getManifestResponse_fetch_run w s s1 registry repo tag h r hAuth hw
    rw [hst] at h1
    rw [if_pos (by omega : 400 ≤ 429)] at h1
    rw [getManifestResponseCatch_status_run registry _ 429 (by omega) (by omega)]
      at h1
    rcases Decidable.em (strEndsWith registry "docker.io" = true) with hend | hend
    · rw [if_pos hend]
      rw [if_pos ⟨rfl, hend⟩] at h1
      exact h1.trans rfl
    · rw [if_neg hend]
      rw [if_neg (fun hc => hend hc.2), if_neg (by omega)] at h1
      exact h1.trans rfl
  · exact getLabels_blobStatus_run w s s1 s2 fuel registry repo tag d h rb
      hMiss hDig hd hAuth hw (by omega)
  · exact getAuthHeaders_noChallenge_run w s registry repo rp hw hh

/-- Counterexample for C1: a 429 from a third-party registry that is not
the default public registry but whose URL ends with docker.io is raised
as the host-fatal ExternalHostError, contradicting the claim that only
the default public registry's 429 is host-fatal. -/
theorem claim_C1_counterexample :
    ("https://fake-docker.io" : String) ≠ defaultRegistryUrl ∧
    getManifestResponse "https://fake-docker.io" "foo" "1.0"
      (manifestStatusWorld "https://fake-docker.io" 429) {} =
      (.error (.external
        (httpError (manifestUrlOf "https://fake-docker.io" "foo" "1.0") 429)),
       { requests := [apiCheckUrlOf "https://fake-docker.io",
                      manifestUrlOf "https://fake-docker.io" "foo" "1.0"],
         cache := [] }) :=
  ⟨by decide, by rfl⟩

/-- Witness for C1: the manifest-fetch 429 raises against the default
public registry, a blob-fetch 429 there yields the empty mapping, and a
challenge-free 429 probe yields the empty headers object. -/
theorem claim_C1_witness :
    getManifestResponse "https://index.docker.io" "foo" "1.0"
      (manifestStatusWorld "https://index.docker.io" 429) {} =
      (.error (.external
        (httpError (manifestUrlOf "https://index.docker.io" "foo" "1.0") 429)),
       { requests := [apiCheckUrlOf "https://index.docker.io",
                      manifestUrlOf "https://index.docker.io" "foo" "1.0"],
         cache := [] }) ∧
    getLabels 1 "https://index.docker.io" "foo" "1.0"
      (chainWorld "https://index.docker.io" 429 "") {} =
      (.ok emptyObj,
       { requests := [apiCheckUrlOf "https://index.docker.io",
                      manifestUrlOf "https://index.docker.io" "foo" "1.0",
                      apiCheckUrlOf "https://index.docker.io",
                      blobUrlOf "https://index.docker.io" "foo" "sha256:c1"],
         cache := [] }) ∧
    getAuthHeaders "https://index.docker.io" "foo"
      (probeStatusWorld "https://index.docker.io" 429) {} =
      (.ok (.headers []), { requests := [apiCheckUrlOf "https://index.docker.io"],
                            cache := [] }) := by
  refine ⟨?_, ?_, ?_⟩
  · exact ((claim_C1_amended (manifestStatusWorld "https://index.docker.io" 429)
      {} { requests := [apiCheckUrlOf "https://index.docker.io"], cache := [] }
      {} 0 "https://index.docker.io" "foo" "1.0" "" []
      { statusCode := 429, headers := [], body := "" }
      { statusCode := 0, headers := [], body := "" }
      { statusCode := 0, headers := [], body := "" }).1
      (by rfl) (by rfl) (by rfl)).trans (by rfl)
  · exact (claim_C1_amended (chainWorld "https://index.docker.io" 429 "")
      {} { requests := [apiCheckUrlOf "https://index.docker.io",
                        manifestUrlOf "https://index.docker.io" "foo" "1.0"],
           cache := [] }
      { requests := [apiCheckUrlOf "https://index.docker.io",
                     manifestUrlOf "https://index.docker.io" "foo" "1.0",
                     apiCheckUrlOf "https://index.docker.io"],
        cache := [] }
      1 "https://index.docker.io" "foo" "1.0" "sha256:c1" []
      { statusCode := 0, headers := [], body := "" }
      { statusCode := 0, headers := [], body := "" }
      { statusCode := 429, headers := [], body := "" }).2.1
      (by rfl) (by rfl) (by decide) (by rfl) (by rfl) (by rfl)
  · exact (claim_C1_amended (probeStatusWorld "https://index.docker.io" 429)
      {} {} {} 0 "https://index.docker.io" "foo" "1.0" "" []
      { statusCode := 0, headers := [], body := "" }
      { statusCode := 429, headers := [], body := "" }
      { statusCode := 0, headers := [], body := "" }).2.2
      (by rfl) (by rfl) (by rfl)

/-- C2, amended: a 5xx status raises the host-fatal ExternalHostError
when it answers the manifest fetch (any registry) or the bearer token
exchange (when the token service host is not the quay.io special case);
but the unauthenticated probe is performed without throwing on statuses,
so a challenge-free 5xx probe response yields the empty headers object,
and a 5xx on the blob fetch inside getLabels is caught, logged and
yields the empty mapping, so getLabels raises only the inner
ExternalHostError instances it re-raises. -/
theorem claim_C2_amended (w : World) (s s1 s2 : WState) (fuel : Nat)
    (registry repo tag d ch : String) (h : List (String × String))
    (r r0 r1 rp rb : HttpResponse) :
    (getAuthHeaders registry repo w s = (.ok (.headers h), s1) →
     w.http (manifestUrlOf registry repo tag) = .resp r →
     500 ≤ r.statusCode ∧ r.statusCode < 600 →
     getManifestResponse registry repo tag w s =
       (.error (.external (httpError (manifestUrlOf registry repo tag) r.statusCode)),
        addReq s1 (manifestUrlOf registry repo tag))) ∧
    (w.http (apiCheckUrlOf registry) = .resp r0 →
     lookupStr "www-authenticate" r0.headers = some ch →
     strToUpper (parseChallenge ch).scheme ≠ "BASIC" →
     w.http (authUrlOf (parseChallenge ch) repo) = .resp r1 →
     500 ≤ r1.statusCode ∧ r1.statusCode < 600 →
     urlHost (authUrlOf (parseChallenge ch) repo) ≠ "quay.io" →
     getAuthHeaders registry repo w s =
       (.error (.external (httpError (authUrlOf (parseChallenge ch) repo) r1.statusCode)),
        addReq (addReq s (apiCheckUrlOf registry)) (authUrlOf (parseChallenge ch) repo))) ∧
    (cachedVal s cacheNamespaceLabels (labelsCacheKey registry repo tag) = none →
     getConfigDigest fuel registry repo tag w s = (.ok (some d), s1) →
     d ≠ "" →
     getAuthHeaders registry repo w s1 = (.ok (.headers h), s2) →
     w.http (blobUrlOf registry repo d) = .resp rb →
     500 ≤ rb.statusCode ∧ rb.statusCode < 600 →
     getLabels fuel registry repo tag w s =
       (.ok emptyObj, addReq s2 (blobUrlOf registry repo d))) ∧
    (w.http (apiCheckUrlOf registry) = .resp rp →
     500 ≤ rp.statusCode ∧ rp.statusCode < 600 →
     lookupStr "www-authenticate" rp.headers = none →
     getAuthHeaders registry repo w s =
       (.ok (.headers []), addReq s (apiCheckUrlOf registry))) := by
  refine ⟨fun hAuth hw hst => ?_, fun hw0 hch hsch hw1 hst hq => ?_,
    fun hMiss hDig hd hAuth hw hst => ?_, fun hw hst hh => ?_⟩
  · have h1 := getManifestResponse_fetch_run w s s1 registry repo tag h r hAuth hw
    rw [if_pos (by omega : 400 ≤ r.statusCode)] at h1
    rw [getManifestResponseCatch_status_run registry _ r.statusCode
      (by omega) (by omega)] at h1
    rw [if_neg (fun hc => (by omega : r.statusCode ≠ 429) hc.1), if_pos hst] at h1
    exact h1.trans rfl
  · have h1 := getAuthHeaders_bearerStatus_run w s registry repo r0 r1 ch
      hw0 hch hsch hw1 (by omega)
    rw [getAuthHeadersCatch_status_run registry _ r1.statusCode hq
      (by omega) (by omega)] at h1
    rw [if_neg (fun hc => (by omega : r1.statusCode ≠ 429) hc.1), if_pos hst] at h1
    exact h1.trans rfl
  · exact getLabels_blobStatus_run w s s1 s2 fuel registry repo tag d h rb
      hMiss hDig hd hAuth hw (by omega)
  · exact getAuthHeaders_noChallenge_run w s registry repo rp hw hh

/-- Counterexample for C2: a 500 answer to the blob fetch inside
getLabels does not propagate as any error at all; getLabels catches it
and returns the empty mapping, contradicting the claim that a 5xx
received during the blob fetch propagates as the host-fatal error and
that getLabels raises in that case. -/
theorem claim_C2_counterexample :
    getLabels 1 "https://reg.example.com" "foo" "1.0"
      (chainWorld "https://reg.example.com" 500 "") {} =
      (.ok emptyObj,
       { requests := [apiCheckUrlOf "https://reg.example.com",
                      manifestUrlOf "https://reg.example.com" "foo" "1.0",
                      apiCheckUrlOf "https://reg.example.com",
                      blobUrlOf "https://reg.example.com" "foo" "sha256:c1"],
         cache := [] }) := by rfl

/-- Witness for C2: a manifest-fetch 500 raises, a token-exchange 500
raises, a blob-fetch 500 is swallowed into the empty mapping, and a
challenge-free 500 probe yields the empty headers object. -/
theorem claim_C2_witness :
    getManifestResponse "https://reg.example.com" "foo" "1.0"
      (manifestStatusWorld "https://reg.example.com" 500) {} =
      (.error (.external
        (httpError (manifestUrlOf "https://reg.example.com" "foo" "1.0") 500)),
       { requests := [apiCheckUrlOf "https://reg.example.com",
                      manifestUrlOf "https://reg.example.com" "foo" "1.0"],
         cache := [] }) ∧
    getAuthHeaders "https://reg.example.com" "foo"
      (bearerWorld "https://reg.example.com" 500) {} =
      (.error (.external
        (httpError "https://auth.example.com/token?service=svc&scope=repository:foo:pull" 500)),
       { requests := [apiCheckUrlOf "https://reg.example.com",
                      "https://auth.example.com/token?service=svc&scope=repository:foo:pull"],
         cache := [] }) ∧
    getLabels 1 "https://other.example.com" "foo" "1.0"
      (chainWorld "https://other.example.com" 503 "") {} =
      (.ok emptyObj,
       { requests := [apiCheckUrlOf "https://other.example.com",
                      manifestUrlOf "https://other.example.com" "foo" "1.0",
                      apiCheckUrlOf "https://other.example.com",
                      blobUrlOf "https://other.example.com" "foo" "sha256:c1"],
         cache := [] }) ∧
    getAuthHeaders "https://reg.example.com" "foo"
      (probeStatusWorld "https://reg.example.com" 500) {} =
      (.ok (.headers []),
       { requests := [apiCheckUrlOf "https://reg.example.com"], cache := [] }) := by
  refine ⟨?_, ?_, ?_, ?_⟩
  · exact (claim_C2_amended (manifestStatusWorld "https://reg.example.com" 500)
      {} { requests := [apiCheckUrlOf "https://reg.example.com"], cache := [] }
      {} 0 "https://reg.example.com" "foo" "1.0" "" "" []
      { statusCode := 500, headers := [], body := "" }
      { statusCode := 0, headers := [], body := "" }
      { statusCode := 0, headers := [], body := "" }
      { statusCode := 0, headers := [], body := "" }
      { statusCode := 0, headers := [], body := "" }).1
      (by rfl) (by rfl) (by decide)
  · exact (claim_C2_amended (bearerWorld "https://reg.example.com" 500)
      {} {} {} 0 "https://reg.example.com" "foo" "1.0" ""
      "Bearer realm=\"https://auth.example.com/token\",service=\"svc\"" []
      { statusCode := 0, headers := [], body := "" }
      { statusCode := 401
        headers := [("www-authenticate",
          "Bearer realm=\"https://auth.example.com/token\",service=\"svc\"")]
        body := "" }
      { statusCode := 500, headers := [], body := "" }
      { statusCode := 0, headers := [], body := "" }
      { statusCode := 0, headers := [], body := "" }).2.1
      (by rfl) (by rfl) (by decide) (by rfl) (by decide) (by decide)
  · exact (claim_C2_amended (chainWorld "https://other.example.com" 503 "")
      {} { requests := [apiCheckUrlOf "https://other.example.com",
                        manifestUrlOf "https://other.example.com" "foo" "1.0"],
           cache := [] }
      { requests := [apiCheckUrlOf "https://other.example.com",
                     manifestUrlOf "https://other.example.com" "foo" "1.0",
                     apiCheckUrlOf "https://other.example.com"],
        cache := [] }
      1 "https://other.example.com" "foo" "1.0" "sha256:c1" "" []
      { statusCode := 0, headers := [], body := "" }
      { statusCode := 0, headers := [], body := "" }
      { statusCode := 0, headers := [], body := "" }
      { statusCode := 0, headers := [], body := "" }
      { statusCode := 503, headers := [], body := "" }).2.2.1
      (by rfl) (by rfl) (by decide) (by rfl) (by rfl) (by decide)
  · exact (claim_C2_amended (probeStatusWorld "https://reg.example.com" 500)
      {} {} {} 0 "https://reg.example.com" "foo" "1.0" "" "" []
      { statusCode := 0, headers := [], body := "" }
      { statusCode := 0, headers := [], body := "" }
      { statusCode := 0, headers := [], body := "" }
      { statusCode := 500, headers := [], body := "" }
      { statusCode := 0, headers := [], body := "" }).2.2.2
      (by rfl) (by decide) (by rfl)

/-- C3: the code bug behind the claim.  On a successful blob fetch whose
parsed body has a config object without a Labels field, the labels
variable is reassigned the undefined property value, so getLabels
returns undefined rather than a mapping, and it is that undefined which
is cached for 60 minutes, contradicting the declared return type of the
function, the empty-object initializer of the labels variable and the
specified treat-absent-as-empty behaviour. -/
theorem claim_C3_code_bug :
    getLabels 1 "https://reg.example.com" "foo" "1.0"
      (chainWorld "https://reg.example.com" 200 "\x7b\"config\":\x7b\x7d\x7d") {} =
      (.ok none,
       { requests := [apiCheckUrlOf "https://reg.example.com",
                      manifestUrlOf "https://reg.example.com" "foo" "1.0",
                      apiCheckUrlOf "https://reg.example.com",
                      blobUrlOf "https://reg.example.com" "foo" "sha256:c1"],
         cache := [⟨cacheNamespaceLabels, "https://reg.example.com:foo:1.0",
                    none, 60⟩] }) := by rfl

/-- C4, amended: a schemaVersion-2 body that is neither a manifest list
nor a single-image manifest by media type yields null from
getConfigDigest without raising, and so does the manifest-list media
type with a present but empty manifests array; but the manifest-list
media type with no manifests field at all, the example the claim gives,
raises a TypeError instead of returning null. -/
theorem claim_C4_amended (w : World) (s s1 : WState) (fuel : Nat)
    (registry repo tag : String) (mr : HttpResponse) (fs : JsonObj)
    (hMan : getManifestResponse registry repo tag w s = (.ok (some mr), s1))
    (hParse : jsonParse mr.body = some (.obj fs))
    (hSv : fs.lookup "schemaVersion" = some (.num 2)) :
    (jsStrictEqStr (fs.lookup "mediaType") MediaType.manifestListV2 = false →
     jsStrictEqStr (fs.lookup "mediaType") MediaType.manifestV2 = false →
     getConfigDigest (fuel + 1) registry repo tag w s = (.ok none, s1)) ∧
    (fs.lookup "mediaType" = some (.str MediaType.manifestListV2) →
     fs.lookup "manifests" = some (.arr .nil) →
     getConfigDigest (fuel + 1) registry repo tag w s = (.ok none, s1)) ∧
    (fs.lookup "mediaType" = some (.str MediaType.manifestListV2) →
     fs.lookup "manifests" = none →
     getConfigDigest (fuel + 1) registry repo tag w s =
       (.error (.js typeError), s1)) :=
  ⟨fun hNotList hNotV2 =>
     getConfigDigest_otherMedia_run w s s1 fuel registry repo tag mr fs
       hMan hParse hSv hNotList hNotV2,
   fun hMt hMs =>
     getConfigDigest_emptyList_run w s s1 fuel registry repo tag mr fs
       hMan hParse hSv hMt hMs,
   fun hMt hMs =>
     getConfigDigest_absentManifests_run w s s1 fuel registry repo tag mr fs
       hMan hParse hSv hMt hMs⟩

/-- Counterexample for C4: the response body the claim itself offers as
an example, a schemaVersion-2 body whose mediaType is the manifest-list
type but which has no manifests array, makes getConfigDigest raise a
TypeError rather than return null. -/
theorem claim_C4_counterexample :
    getConfigDigest 1 "https://reg.example.com" "foo" "absent"
      (shapeWorld "https://reg.example.com") {} =
      (.error (.js typeError),
       { requests := [apiCheckUrlOf "https://reg.example.com",
                      manifestUrlOf "https://reg.example.com" "foo" "absent"],
         cache := [] }) := by rfl

/-- Witness for C4: a foreign media type yields null, an empty manifest
list yields null, and a missing manifests field raises the TypeError. -/
theorem claim_C4_witness :
    getConfigDigest 1 "https://reg.example.com" "foo" "other"
      (shapeWorld "https://reg.example.com") {} =
      (.ok none,
       { requests := [apiCheckUrlOf "https://reg.example.com",
                      manifestUrlOf "https://reg.example.com" "foo" "other"],
         cache := [] }) ∧
    getConfigDigest 1 "https://reg.example.com" "foo" "empty"
      (shapeWorld "https://reg.example.com") {} =
      (.ok none,
       { requests := [apiCheckUrlOf "https://reg.example.com",
                      manifestUrlOf "https://reg.example.com" "foo" "empty"],
         cache := [] }) ∧
    getConfigDigest 1 "https://reg.example.com" "foo" "absent"
      (shapeWorld "https://reg.example.com") {} =
      (.error (.js typeError),
       { requests := [apiCheckUrlOf "https://reg.example.com",
                      manifestUrlOf "https://reg.example.com" "foo" "absent"],
         cache := [] }) := by
  refine ⟨?_, ?_, ?_⟩
  · exact (claim_C4_amended (shapeWorld "https://reg.example.com") {}
      { requests := [apiCheckUrlOf "https://reg.example.com",
                     manifestUrlOf "https://reg.example.com" "foo" "other"],
        cache := [] }
      0 "https://reg.example.com" "foo" "other"
      { statusCode := 200, headers := [],
        body := "\x7b\"schemaVersion\":2,\"mediaType\":\"application/foo\"\x7d" }
      (.cons "schemaVersion" (.num 2)
        (.cons "mediaType" (.str "application/foo") .nil))
      (by rfl) (by rfl) (by rfl)).1 (by decide) (by decide)
  · exact (claim_C4_amended (shapeWorld "https://reg.example.com") {}
      { requests := [apiCheckUrlOf "https://reg.example.com",
                     manifestUrlOf "https://reg.example.com" "foo" "empty"],
        cache := [] }
      0 "https://reg.example.com" "foo" "empty"
      { statusCode := 200, headers := [],
        body := "\x7b\"schemaVersion\":2,\"mediaType\":\"application/vnd.docker.distribution.manifest.list.v2+json\",\"manifests\":[]\x7d" }
      (.cons "schemaVersion" (.num 2)
        (.cons "mediaType" (.str MediaType.manifestListV2)
          (.cons "manifests" (.arr .nil) .nil)))
      (by rfl) (by rfl) (by rfl)).2.1 (by rfl) (by rfl)
  · exact (claim_C4_amended (shapeWorld "https://reg.example.com") {}
      { requests := [apiCheckUrlOf "https://reg.example.com",
                     manifestUrlOf "https://reg.example.com" "foo" "absent"],
        cache := [] }
      0 "https://reg.example.com" "foo" "absent"
      { statusCode := 200, headers := [],
        body := "\x7b\"schemaVersion\":2,\"mediaType\":\"application/vnd.docker.distribution.manifest.list.v2+json\"\x7d" }
      (.cons "schemaVersion" (.num 2)
        (.cons "mediaType" (.str MediaType.manifestListV2) .nil))
      (by rfl) (by rfl) (by rfl)).2.2 (by rfl) (by rfl)

/-- C10, amended: when the probe response presents a BASIC challenge
(case-insensitive), no credentials are found, the registry is not an
ECR host, and the probe status is below 400 so that the verification
GET succeeds, getAuthHeaders returns the undefined value of its
never-assigned headers field, distinct from both the empty mapping and
null, and getManifestResponse treats it as no usable auth and returns
null. -/
theorem claim_C10_amended (w : World) (s : WState)
    (registry repo tag ch : String) (r : HttpResponse)
    (hw : w.http (apiCheckUrlOf registry) = .resp r)
    (hst : r.statusCode < 400)
    (hch : lookupStr "www-authenticate" r.headers = some ch)
    (hsch : strToUpper (parseChallenge ch).scheme = "BASIC")
    (hu : (w.hostRule (apiCheckUrlOf registry)).username = none)
    (hecr : ecrMatch registry = none) :
    getAuthHeaders registry repo w s =
      (.ok .undef,
       addReq (addReq s (apiCheckUrlOf registry)) (apiCheckUrlOf registry)) ∧
    getManifestResponse registry repo tag w s =
      (.ok none,
       addReq (addReq s (apiCheckUrlOf registry)) (apiCheckUrlOf registry)) := by
  have h1 := getAuthHeaders_basicVerified_run w s registry repo r ch hw hch hsch hst
  rw [show optsHeadersOf w registry (w.hostRule (apiCheckUrlOf registry)) = none
    from by simp [optsHeadersOf, hecr, hu, optStrTruthy]] at h1
  exact ⟨h1, getManifestResponse_falsyAuth_run w s _ registry repo tag .undef h1 rfl⟩

/-- Counterexample for C10: against a registry whose probe answers the
BASIC challenge with status 401, the verification GET throws, the catch
classifies the 401, and getAuthHeaders returns null, not the undefined
value the claim asserts for every BASIC registry without credentials. -/
theorem claim_C10_counterexample :
    getAuthHeaders "https://basic.example.com" "foo" (basicWorld 401) {} =
      (.ok .nullv,
       { requests := [apiCheckUrlOf "https://basic.example.com",
                      apiCheckUrlOf "https://basic.example.com"],
         cache := [] }) ∧
    (Except.ok AuthHeadersResult.nullv : Except DockerErr AuthHeadersResult) ≠
      Except.ok AuthHeadersResult.undef :=
  ⟨by rfl, fun hc => AuthHeadersResult.noConfusion (Except.ok.inj hc)⟩

/-- Witness for C10: a BASIC registry answering the probe with 200 and
no credentials found yields the undefined headers value and a null
manifest response. -/
theorem claim_C10_witness :
    getAuthHeaders "https://basic.example.com" "foo" (basicWorld 200) {} =
      (.ok .undef,
       { requests := [apiCheckUrlOf "https://basic.example.com",
                      apiCheckUrlOf "https://basic.example.com"],
         cache := [] }) ∧
    getManifestResponse "https://basic.example.com" "foo" "1.0"
      (basicWorld 200) {} =
      (.ok none,
       { requests := [apiCheckUrlOf "https://basic.example.com",
                      apiCheckUrlOf "https://basic.example.com"],
         cache := [] }) :=
  claim_C10_amended (basicWorld 200) {} "https://basic.example.com" "foo" "1.0"
    "Basic realm=\"Registry\""
    { statusCode := 200
      headers := [("www-authenticate", "Basic realm=\"Registry\"")]
      body := "" }
    (by rfl) (by decide) (by rfl) (by rfl) (by rfl) (by rfl)

/-- C9, amended: with the default public registry configured, a lookup
name of at least two slash-separated segments whose first segment
contains a dot or a colon resolves to that first segment as the
https-prefixed registry with the remaining segments as the repository,
provided the first segment is not docker.io itself (which is
canonicalized to index.docker.io), no insecure-registry credential rule
downgrades the scheme, and the Docker-Hub implicit library namespace
case (registry ending in .docker.io with a single remaining segment)
does not apply; the concrete resolution of the claim holds. -/
theorem claim_C9_amended (w : World) (lookupName first : String)
    (rest : List String)
    (hsplit : strSplitOnChar '/' lookupName = first :: rest)
    (hrest : rest ≠ [])
    (hhost : (strContainsChar first '.' || strContainsChar first ':') = true)
    (hscheme : hasUrlScheme first = false)
    (hdocker : first ≠ "docker.io")
    (hsec : (w.hostRule ("https://" ++ first)).insecureRegistry = false)
    (hlib : strEndsWith ("https://" ++ first) ".docker.io" = false ∨
            strContainsChar (String.intercalate "/" rest) '/' = true) :
    getRegistryRepository w lookupName defaultRegistryUrl =
      { registry := "https://" ++ first,
        repository := String.intercalate "/" rest } ∧
    getRegistryRepository plainWorld "myregistry.example.com/foo/bar"
      defaultRegistryUrl =
      { registry := "https://myregistry.example.com", repository := "foo/bar" } := by
  refine ⟨?_, by rfl⟩
  have hlen : decide ((first :: rest).length > 1) = true := by
    have := List.length_pos.mpr hrest
    simp [List.length_cons]
    omega
  unfold getRegistryRepository
  rw [if_neg (by simp)]
  unfold getRegistryRepositoryTail
  rw [hsplit]
  simp only [List.headD_cons, List.tail_cons, hlen, hhost, Bool.and_self,
    if_true, Bool.true_and, hscheme]
  rw [if_neg hdocker]
  simp only [hscheme, Bool.false_eq_true, if_false, hsec]
  rcases hlib with hA | hB
  · simp [hA]
  · simp [hB]

/-- Counterexample for C9: the lookup name docker.io/ubuntu has two
segments and its first segment contains a dot, yet the Repository
Locator neither keeps that segment as the registry (it canonicalizes it
to index.docker.io) nor merely removes it from the repository (it adds
the implicit library namespace). -/
theorem claim_C9_counterexample :
    getRegistryRepository plainWorld "docker.io/ubuntu" defaultRegistryUrl =
      { registry := "https://index.docker.io", repository := "library/ubuntu" } ∧
    ({ registry := "https://index.docker.io", repository := "library/ubuntu" } :
        RegistryRepository) ≠
      { registry := "https://docker.io", repository := "ubuntu" } :=
  ⟨by rfl, by decide⟩

/-- Witness for C9: the general resolution applied to the concrete
lookup name of the claim. -/
theorem claim_C9_witness :
    getRegistryRepository plainWorld "myregistry.example.com/foo/bar"
      defaultRegistryUrl =
      { registry := "https://" ++ "myregistry.example.com",
        repository := String.intercalate "/" ["foo", "bar"] } ∧
    getRegistryRepository plainWorld "myregistry.example.com/foo/bar"
      defaultRegistryUrl =
      { registry := "https://myregistry.example.com", repository := "foo/bar" } :=
  claim_C9_amended plainWorld "myregistry.example.com/foo/bar"
    "myregistry.example.com" ["foo", "bar"]
    (by rfl) (by decide) (by rfl) (by rfl) (by decide) (by rfl)
    (.inl (by rfl))
